import Mathlib

/-!
Verification of the subscription-lifecycle logic of the OK Virtuals Telegram
bot (src/bot.py).  The relational store (tables `users`, `payments`,
`subscription_history`, `notifications`) is embedded as lists of rows; the
`DatabaseManager` methods, the payment-verification callback, the expiry and
reminder sweep passes, the checkout rate limiter and the configuration loader
are translated as pure functions.  Timestamps are naturals (seconds); the
ISO-8601 strings stored by the code compare lexicographically in the same
order as chronologically, so `<` on naturals models the SQL comparisons.
-/

/-- Row of the `users` table (bot.py, `init_database`). -/
structure UserRow where
  user_id : Nat
  username : String
  first_name : String
  subscription_start : Option Nat
  subscription_end : Option Nat
  is_premium : Bool
  total_predictions_viewed : Nat
  successful_bets : Nat
  total_bets : Nat
  last_active : Option Nat
  created_at : Nat
  updated_at : Nat
  invite_link : Option String
  last_reminder_sent : Option Nat
deriving DecidableEq, Repr

/-- Row of the `payments` table. -/
structure PaymentRow where
  user_id : Nat
  transaction_ref : String
  amount : ℚ
  status : String
  flutterwave_id : Option String
  created_at : Nat
  completed_at : Option Nat
deriving DecidableEq, Repr

/-- Row of the `subscription_history` table. -/
structure HistoryRow where
  user_id : Nat
  start_date : Nat
  end_date : Nat
  amount : ℚ
  status : String
  is_renewal : Bool
deriving DecidableEq, Repr

/-- Row of the `notifications` table. -/
structure NotificationRow where
  user_id : Nat
  ntype : String
  message : String
deriving DecidableEq, Repr

/-- The persistent store: the four tables created by `init_database`. -/
structure Store where
  users : List UserRow
  payments : List PaymentRow
  history : List HistoryRow
  notifications : List NotificationRow
deriving DecidableEq, Repr

def emptyStore : Store := ⟨[], [], [], []⟩

/-- Seconds in a day; `timedelta(days=d)` is `d * daySecs`. -/
def daySecs : Nat := 86400

/-- `DatabaseManager.get_user`: `SELECT * FROM users WHERE user_id = ?`. -/
def db_get_user (st : Store) (uid : Nat) : Option UserRow :=
  st.users.find? (fun u => u.user_id == uid)

/-- `DatabaseManager.get_payment_record`:
`SELECT * FROM payments WHERE transaction_ref = ?`. -/
def db_get_payment_record (st : Store) (ref : String) : Option PaymentRow :=
  st.payments.find? (fun p => p.transaction_ref == ref)

/-- The row created by `add_user`'s `INSERT OR IGNORE`: a non-premium user
with NULL subscription fields and the table defaults. -/
def freshUserRow (uid : Nat) (uname fname : String) (now : Nat) : UserRow :=
  { user_id := uid, username := uname, first_name := fname,
    subscription_start := none, subscription_end := none,
    is_premium := false, total_predictions_viewed := 0,
    successful_bets := 0, total_bets := 0,
    last_active := some now, created_at := now, updated_at := now,
    invite_link := none, last_reminder_sent := none }

/-- `DatabaseManager.add_user`: `INSERT OR IGNORE` of a fresh row followed by
an `UPDATE` of the name fields, `last_active` and `updated_at`. -/
def db_add_user (st : Store) (uid : Nat) (uname fname : String) (now : Nat) : Store :=
  let users1 :=
    if (st.users.find? (fun u => u.user_id == uid)).isSome then st.users
    else st.users ++ [freshUserRow uid uname fname now]
  { st with users := users1.map (fun u =>
      if u.user_id == uid then
        { u with username := uname, first_name := fname,
                 last_active := some now, updated_at := now }
      else u) }

/-- `DatabaseManager.update_subscription`: sets the subscription window,
`is_premium = 1`, `updated_at`, clears `last_reminder_sent`, and appends a
`subscription_history` row whose amount is `SUBSCRIPTION_AMOUNT / 100`. -/
def db_update_subscription (st : Store) (uid sd ed : Nat) (isRenewal : Bool)
    (subAmount : ℚ) (now : Nat) : Store :=
  { st with
    users := st.users.map (fun u =>
      if u.user_id == uid then
        { u with subscription_start := some sd, subscription_end := some ed,
                 is_premium := true, updated_at := now, last_reminder_sent := none }
      else u),
    history := st.history ++
      [{ user_id := uid, start_date := sd, end_date := ed,
         amount := subAmount / 100, status := "active", is_renewal := isRenewal }] }

/-- `DatabaseManager.revoke_subscription`: `is_premium = 0`, `updated_at`,
`invite_link = NULL`. -/
def db_revoke_subscription (st : Store) (uid : Nat) (now : Nat) : Store :=
  { st with users := st.users.map (fun u =>
      if u.user_id == uid then
        { u with is_premium := false, updated_at := now, invite_link := none }
      else u) }

/-- `DatabaseManager.get_expired_subscriptions`:
`WHERE is_premium = 1 AND subscription_end < current_time` (a NULL
`subscription_end` compares as NULL, hence is not selected). -/
def db_get_expired_subscriptions (st : Store) (now : Nat) : List UserRow :=
  st.users.filter (fun u =>
    u.is_premium && (match u.subscription_end with
                     | some e => decide (e < now)
                     | none => false))

/-- The reminder thresholds from `CONFIG.REMINDER_DAYS = "7,3,1"`. -/
def reminderDays : List Nat := [7, 3, 1]

/-- The per-threshold selection of `DatabaseManager.get_users_needing_reminder`:
`is_premium = 1 AND subscription_end >= target AND subscription_end < next_day
AND (last_reminder_sent IS NULL OR last_reminder_sent < target)` where
`target = now + days` and `next_day = now + days + 1`. -/
def needsReminderAt (now d : Nat) (u : UserRow) : Bool :=
  u.is_premium &&
  (match u.subscription_end with
   | some e => decide (now + d * daySecs ≤ e) && decide (e < now + (d + 1) * daySecs)
   | none => false) &&
  (match u.last_reminder_sent with
   | none => true
   | some lr => decide (lr < now + d * daySecs))

/-- `DatabaseManager.get_users_needing_reminder`: one query per configured
threshold, results concatenated with the threshold as `days_remaining`. -/
def db_get_users_needing_reminder (st : Store) (now : Nat) : List (UserRow × Nat) :=
  reminderDays.foldl (fun acc d =>
    acc ++ (st.users.filter (needsReminderAt now d)).map (fun u => (u, d))) []

/-- `DatabaseManager.mark_reminder_sent`. -/
def db_mark_reminder_sent (st : Store) (uid : Nat) (now : Nat) : Store :=
  { st with users := st.users.map (fun u =>
      if u.user_id == uid then { u with last_reminder_sent := some now } else u) }

/-- `DatabaseManager.add_payment_record`: inserts a `pending` payment row. -/
def db_add_payment_record (st : Store) (uid : Nat) (ref : String) (amount : ℚ)
    (now : Nat) : Store :=
  { st with payments := st.payments ++
      [{ user_id := uid, transaction_ref := ref, amount := amount,
         status := "pending", flutterwave_id := none,
         created_at := now, completed_at := none }] }

/-- `DatabaseManager.update_payment_status`. -/
def db_update_payment_status (st : Store) (ref status : String)
    (flwId : Option String) (now : Nat) : Store :=
  { st with payments := st.payments.map (fun p =>
      if p.transaction_ref == ref then
        { p with status := status, completed_at := some now, flutterwave_id := flwId }
      else p) }

/-- `DatabaseManager.save_invite_link`. -/
def db_save_invite_link (st : Store) (uid : Nat) (link : String) : Store :=
  { st with users := st.users.map (fun u =>
      if u.user_id == uid then { u with invite_link := some link } else u) }

/-- `DatabaseManager.log_notification`. -/
def db_log_notification (st : Store) (uid : Nat) (ntype message : String) : Store :=
  { st with notifications := st.notifications ++
      [{ user_id := uid, ntype := ntype, message := message }] }

/-- `DatabaseManager.update_user_stats`. -/
def db_update_user_stats (st : Store) (uid pv bets now : Nat) : Store :=
  { st with users := st.users.map (fun u =>
      if u.user_id == uid then
        { u with total_predictions_viewed := u.total_predictions_viewed + pv,
                 total_bets := u.total_bets + bets,
                 last_active := some now, updated_at := now }
      else u) }

/-- The gateway verification response consulted by `verify_payment_callback`:
top-level `status` and the nested `data.status` / `data.id` fields. -/
structure FlwVerification where
  status : String
  dataStatus : Option String
  dataId : Option String
deriving DecidableEq, Repr

/-- The success test in `verify_payment_callback`:
`status == 'success' and data.status == 'successful'`. -/
def verificationSuccessful (v : FlwVerification) : Bool :=
  v.status == "success" && v.dataStatus == some "successful"

/-- The user-visible outcome of `verify_payment_callback`. -/
inductive VerifyResponse where
  | recordNotFound
  | alreadyProcessedWithLink (link : String)
  | alreadyProcessedNoLink
  | activated (isRenewal : Bool) (endDate : Nat) (link : String)
  | activatedNoLink (isRenewal : Bool) (endDate : Nat)
  | verificationFailed
deriving DecidableEq, Repr

/-- The window computation in `verify_payment_callback` (bot.py 1514-1532):
a premium user whose stored end parses and lies strictly in the future gets
`start = previous end` and the renewal flag; everyone else (no row, not
premium, NULL end — `fromisoformat` raises and the `except` falls through —
or an already-passed end) gets `start = now`.  Returns
`(start, end, is_renewal)` with `end = start + D days`. -/
def computeSubscriptionWindow (userData : Option UserRow) (now D : Nat) :
    Nat × Nat × Bool :=
  match userData with
  | some u =>
    if u.is_premium then
      match u.subscription_end with
      | some e =>
        if now < e then (e, e + D * daySecs, true)
        else (now, now + D * daySecs, false)
      | none => (now, now + D * daySecs, false)
    else (now, now + D * daySecs, false)
  | none => (now, now + D * daySecs, false)

/-- `OKVirtualsBot.verify_payment_callback` as a store transition.  `D` is
`SUBSCRIPTION_DAYS`, `subAmount` is `SUBSCRIPTION_AMOUNT`, `verif` the
gateway verification result, `inviteLink` the (external) outcome of
`create_invite_link`. -/
def verify_payment_callback (D : Nat) (subAmount : ℚ) (verif : FlwVerification)
    (inviteLink : Option String) (st : Store) (uid : Nat) (txRef : String)
    (now : Nat) : Store × VerifyResponse :=
  match db_get_payment_record st txRef with
  | none => (st, .recordNotFound)
  | some p =>
    if p.user_id ≠ uid then (st, .recordNotFound)
    else if p.status = "completed" then
      match (db_get_user st uid).bind (fun u => u.invite_link) with
      | some link => (st, .alreadyProcessedWithLink link)
      | none => (st, .alreadyProcessedNoLink)
    else if verificationSuccessful verif then
      let w := computeSubscriptionWindow (db_get_user st uid) now D
      let st1 := db_update_subscription st uid w.1 w.2.1 w.2.2 subAmount now
      let st2 := db_update_payment_status st1 txRef "completed" verif.dataId now
      match inviteLink with
      | some link =>
        let st3 := db_save_invite_link st2 uid link
        let st4 := db_log_notification st3 uid "payment_success" "Payment successful"
        (st4, .activated w.2.2 w.2.1 link)
      | none => (st2, .activatedNoLink w.2.2 w.2.1)
    else (st, .verificationFailed)

/-- `SubscriptionMonitor._check_expired_subscriptions`: for each row returned
by `get_expired_subscriptions`, revoke in the database first, then attempt
channel removal (no database effect either way) and the expiry notification,
which logs a `notifications` row only when the send succeeds.  Failures of
the external calls are caught per user and do not undo the revocation. -/
def sweepExpireStep (removeOk notifyOk : Nat → Bool) (now : Nat) (s : Store)
    (u : UserRow) : Store :=
  let s1 := db_revoke_subscription s u.user_id now
  let _ := removeOk u.user_id
  if notifyOk u.user_id then
    db_log_notification s1 u.user_id "expiry" "Subscription expired"
  else s1

def sweepExpiredPass (removeOk notifyOk : Nat → Bool) (st : Store) (now : Nat) :
    Store :=
  (db_get_expired_subscriptions st now).foldl
    (sweepExpireStep removeOk notifyOk now) st

/-- `SubscriptionMonitor._send_expiry_reminders`: for each selected user the
reminder notification is attempted (`_send_reminder_notification` swallows
its own send failures and logs a `notifications` row on success) and
`mark_reminder_sent` stamps `last_reminder_sent = now`. -/
def sweepRemindStep (now : Nat) (s : Store) (ud : UserRow × Nat) : Store :=
  let s1 := db_log_notification s ud.1.user_id "reminder" "Reminder sent"
  db_mark_reminder_sent s1 ud.1.user_id now

def sweepReminderPass (st : Store) (now : Nat) : Store :=
  (db_get_users_needing_reminder st now).foldl (sweepRemindStep now) st

/-- `RateLimiter.max_requests_per_minute`. -/
def rlMaxRequests : Nat := 10

/-- The pruning inside `RateLimiter.is_allowed`: keep stamps with
`req_time > current_time - 60`, i.e. `now < t + 60` on naturals. -/
def rlPrune (now : Nat) (ts : List Nat) : List Nat :=
  ts.filter (fun t => decide (now < t + 60))

/-- One call of `RateLimiter.is_allowed` for a single user: prune, then allow
and append the current time iff fewer than the maximum stamps remain. -/
def rlStep (st : List Nat) (now : Nat) : Bool × List Nat :=
  let kept := rlPrune now st
  if kept.length < rlMaxRequests then (true, kept ++ [now]) else (false, kept)

/-- A sequence of `is_allowed` calls for one user, returning each request
time paired with its verdict. -/
def rlRun (st : List Nat) : List Nat → List (Nat × Bool)
  | [] => []
  | t :: ts =>
    let s := rlStep st t
    (t, s.1) :: rlRun s.2 ts

/-- Number of allowed requests whose time lies in the window `(a, a + 60]`. -/
def allowedInWindow (a : Nat) (l : List (Nat × Bool)) : Nat :=
  l.countP (fun p => p.2 && decide (a < p.1) && decide (p.1 ≤ a + 60))

/-- Number of allowed requests in a run. -/
def allowedCount (l : List (Nat × Bool)) : Nat :=
  l.countP (fun p => p.2)

/-- The value of each environment variable read by `load_config`
(`none` models a variable that is not set). -/
structure Env where
  BOT_TOKEN : Option String
  FLUTTERWAVE_SECRET_KEY : Option String
  FLUTTERWAVE_PUBLIC_KEY : Option String
  FLUTTERWAVE_WEBHOOK_SECRET : Option String
  PREMIUM_CHANNEL_ID : Option String
  PREMIUM_CHANNEL_USERNAME : Option String
  DATABASE_PATH : Option String
  PORT : Option Int
  WEBHOOK_URL : Option String
  ADMIN_USER_IDS : Option String
  SUBSCRIPTION_AMOUNT : Option Int
  SUBSCRIPTION_DAYS : Option Int
  REMINDER_DAYS : Option String
deriving DecidableEq, Repr

/-- The `Config` dataclass. -/
structure Config where
  BOT_TOKEN : String
  FLUTTERWAVE_SECRET_KEY : String
  FLUTTERWAVE_PUBLIC_KEY : String
  FLUTTERWAVE_WEBHOOK_SECRET : String
  PREMIUM_CHANNEL_ID : String
  PREMIUM_CHANNEL_USERNAME : String
  DATABASE_PATH : String
  PORT : Int
  WEBHOOK_URL : String
  ADMIN_USER_IDS : String
  SUBSCRIPTION_AMOUNT : Int
  SUBSCRIPTION_DAYS : Int
  REMINDER_DAYS : String
deriving DecidableEq, Repr

/-- `load_config`: every field falls back to its default (`""` for strings),
and the only validation performed is `if not config.BOT_TOKEN: raise
ValueError` — which the module-level handler turns into `sys.exit(1)`. -/
def load_config (env : Env) : Except String Config :=
  let config : Config :=
    { BOT_TOKEN := env.BOT_TOKEN.getD "",
      FLUTTERWAVE_SECRET_KEY := env.FLUTTERWAVE_SECRET_KEY.getD "",
      FLUTTERWAVE_PUBLIC_KEY := env.FLUTTERWAVE_PUBLIC_KEY.getD "",
      FLUTTERWAVE_WEBHOOK_SECRET := env.FLUTTERWAVE_WEBHOOK_SECRET.getD "",
      PREMIUM_CHANNEL_ID := env.PREMIUM_CHANNEL_ID.getD "",
      PREMIUM_CHANNEL_USERNAME := env.PREMIUM_CHANNEL_USERNAME.getD "",
      DATABASE_PATH := env.DATABASE_PATH.getD "./okvirtuals_bot.db",
      PORT := env.PORT.getD 10000,
      WEBHOOK_URL := env.WEBHOOK_URL.getD "",
      ADMIN_USER_IDS := env.ADMIN_USER_IDS.getD "",
      SUBSCRIPTION_AMOUNT := env.SUBSCRIPTION_AMOUNT.getD 10000,
      SUBSCRIPTION_DAYS := env.SUBSCRIPTION_DAYS.getD 30,
      REMINDER_DAYS := env.REMINDER_DAYS.getD "7,3,1" }
  if config.BOT_TOKEN = "" then .error "BOT_TOKEN is required" else .ok config

/-- Whether an `Except` result is a success. -/
def isOkE {ε α : Type} (e : Except ε α) : Bool :=
  match e with
  | .ok _ => true
  | .error _ => false

/-- A storage-layer error carrying the operation that raised it. -/
structure StorageError where
  op : String
deriving DecidableEq, Repr

/-- `DatabaseManager.get_user` with a storage-layer failure flag: the
`except` clause logs and `return None` — failure is reported as absence. -/
def get_user_op (fail : Bool) (st : Store) (uid : Nat) :
    Except StorageError (Option UserRow) :=
  if fail then .ok none else .ok (db_get_user st uid)

/-- `DatabaseManager.get_payment_record` under failure: logs, `return None`. -/
def get_payment_record_op (fail : Bool) (st : Store) (ref : String) :
    Except StorageError (Option PaymentRow) :=
  if fail then .ok none else .ok (db_get_payment_record st ref)

/-- `DatabaseManager.add_user` under failure: the `except` clause only logs;
the method returns normally and the store is rolled back unchanged. -/
def add_user_op (fail : Bool) (st : Store) (uid : Nat) (uname fname : String)
    (now : Nat) : Except StorageError Store :=
  if fail then .ok st else .ok (db_add_user st uid uname fname now)

/-- `DatabaseManager.revoke_subscription` under failure: logs and swallows. -/
def revoke_subscription_op (fail : Bool) (st : Store) (uid now : Nat) :
    Except StorageError Store :=
  if fail then .ok st else .ok (db_revoke_subscription st uid now)

/-- `DatabaseManager.mark_reminder_sent` under failure: logs and swallows. -/
def mark_reminder_sent_op (fail : Bool) (st : Store) (uid now : Nat) :
    Except StorageError Store :=
  if fail then .ok st else .ok (db_mark_reminder_sent st uid now)

/-- `DatabaseManager.update_subscription` under failure: logs and `raise`. -/
def update_subscription_op (fail : Bool) (st : Store) (uid sd ed : Nat)
    (isRenewal : Bool) (subAmount : ℚ) (now : Nat) : Except StorageError Store :=
  if fail then .error ⟨"update_subscription"⟩
  else .ok (db_update_subscription st uid sd ed isRenewal subAmount now)

/-- `DatabaseManager.add_payment_record` under failure: logs and `raise`. -/
def add_payment_record_op (fail : Bool) (st : Store) (uid : Nat) (ref : String)
    (amount : ℚ) (now : Nat) : Except StorageError Store :=
  if fail then .error ⟨"add_payment_record"⟩
  else .ok (db_add_payment_record st uid ref amount now)

/-- `DatabaseManager.update_payment_status` under failure: logs and `raise`. -/
def update_payment_status_op (fail : Bool) (st : Store) (ref status : String)
    (flwId : Option String) (now : Nat) : Except StorageError Store :=
  if fail then .error ⟨"update_payment_status"⟩
  else .ok (db_update_payment_status st ref status flwId now)

/-- A user row for concrete instantiations. -/
def mkUser (uid : Nat) (se : Option Nat) (prem : Bool) (lr : Option Nat)
    (link : Option String) : UserRow :=
  { user_id := uid, username := "u", first_name := "f", subscription_start := none,
    subscription_end := se, is_premium := prem, total_predictions_viewed := 0,
    successful_bets := 0, total_bets := 0, last_active := none, created_at := 0,
    updated_at := 0, invite_link := link, last_reminder_sent := lr }

/-- A payment row for concrete instantiations. -/
def mkPayment (uid : Nat) (ref status : String) : PaymentRow :=
  { user_id := uid, transaction_ref := ref, amount := 10000, status := status,
    flutterwave_id := none, created_at := 0, completed_at := none }

/-- A gateway verification reporting a settled successful transaction. -/
def okVerif : FlwVerification :=
  { status := "success", dataStatus := some "successful", dataId := some "fid" }

/-- An environment where the bot credential is set but the gateway keys and
the target channel identifier are all missing. -/
def envMissingGateway : Env :=
  { BOT_TOKEN := some "token", FLUTTERWAVE_SECRET_KEY := none,
    FLUTTERWAVE_PUBLIC_KEY := none, FLUTTERWAVE_WEBHOOK_SECRET := none,
    PREMIUM_CHANNEL_ID := none, PREMIUM_CHANNEL_USERNAME := none,
    DATABASE_PATH := none, PORT := none, WEBHOOK_URL := none,
    ADMIN_USER_IDS := none, SUBSCRIPTION_AMOUNT := none,
    SUBSCRIPTION_DAYS := none, REMINDER_DAYS := none }

/-- Store with a completed payment owned by user 1: second verification of
the same reference must not re-extend. -/
def idemStore : Store :=
  { users := [mkUser 1 (some 500) true none (some "L")],
    payments := [mkPayment 1 "ref1" "completed"],
    history := [], notifications := [] }

/-- Store with a pending payment owned by user 2, probed by user 1. -/
def foreignRefStore : Store :=
  { users := [mkUser 1 none false none none],
    payments := [mkPayment 2 "ref2" "pending"],
    history := [], notifications := [] }

/-- Store with one never-subscribed user. -/
def frameStore : Store :=
  { users := [mkUser 1 none false none none], payments := [],
    history := [], notifications := [] }

/-- Store with premium user 7 whose subscription_end is 100 and who holds a
stored invite link. -/
def c4Store : Store :=
  { users := [mkUser 7 (some 100) true none (some "L")], payments := [],
    history := [], notifications := [] }

/-- Store with premium user 5 whose subscription_end (650000 s) falls in the
7-day reminder bucket for sweep passes at times 0 and 1800. -/
def c3Store : Store :=
  { users := [mkUser 5 (some 650000) true none none], payments := [],
    history := [], notifications := [] }

/-- Store with a never-subscribed user 1 holding two pending payment
references, for the activation-then-early-renewal scenario. -/
def c1Store : Store :=
  { users := [mkUser 1 none false none none],
    payments := [mkPayment 1 "r1" "pending", mkPayment 1 "r2" "pending"],
    history := [], notifications := [] }

/-- The store mutations the program performs, as dispatched by the command
handlers, the verification callback and the background sweep. -/
inductive StoreOp where
  | addUser (uid : Nat) (uname fname : String) (now : Nat)
  | addPayment (uid : Nat) (ref : String) (amount : ℚ) (now : Nat)
  | verifyPayment (v : FlwVerification) (link : Option String) (uid : Nat)
      (ref : String) (now : Nat)
  | sweepExpire (removeOk notifyOk : Nat → Bool) (now : Nat)
  | sweepRemind (now : Nat)
  | saveInvite (uid : Nat) (link : String)
  | updateStats (uid pv bets now : Nat)

/-- Dispatch one operation against the store; `D` and `amt` are the
configured `SUBSCRIPTION_DAYS` and `SUBSCRIPTION_AMOUNT`. -/
def applyOp (D : Nat) (amt : ℚ) (st : Store) : StoreOp → Store
  | .addUser uid un fn now => db_add_user st uid un fn now
  | .addPayment uid ref a now => db_add_payment_record st uid ref a now
  | .verifyPayment v link uid ref now =>
      (verify_payment_callback D amt v link st uid ref now).1
  | .sweepExpire removeOk notifyOk now => sweepExpiredPass removeOk notifyOk st now
  | .sweepRemind now => sweepReminderPass st now
  | .saveInvite uid link => db_save_invite_link st uid link
  | .updateStats uid pv bets now => db_update_user_stats st uid pv bets now

def applyOps (D : Nat) (amt : ℚ) (ops : List StoreOp) (st : Store) : Store :=
  ops.foldl (applyOp D amt) st

/-- Per-row invariant: a premium row carries a non-null window whose end
strictly exceeds the start recorded with it. -/
def rowOK (u : UserRow) : Prop :=
  u.is_premium = true →
    ∃ s e, u.subscription_start = some s ∧ u.subscription_end = some e ∧ s < e

def usersOK (l : List UserRow) : Prop := ∀ u ∈ l, rowOK u

/-- The C5 invariant over the whole store. -/
def premiumInvariant (st : Store) : Prop := usersOK st.users

/- ===================== helper lemmas ===================== -/

theorem find?_map_of_pred_preserved {α : Type} (q : α → Bool) (g : α → α)
    (hq : ∀ a, q (g a) = q a) :
    ∀ l : List α, (l.map g).find? q = (l.find? q).map g := by
  intro l
  induction l with
  | nil => simp
  | cons a l ih =>
    by_cases h : q a
    · rw [List.map_cons, List.find?_cons_of_pos _ (by rw [hq]; exact h),
          List.find?_cons_of_pos _ h, Option.map_some']
    · rw [List.map_cons, List.find?_cons_of_neg _ (by rw [hq]; simpa using h),
          List.find?_cons_of_neg _ h]
      exact ih

theorem find?_map_untargeted {α : Type} (q : α → Bool) (g : α → α)
    (hq : ∀ a, q (g a) = q a) (hfix : ∀ a, q a = true → g a = a)
    (l : List α) : (l.map g).find? q = l.find? q := by
  rw [find?_map_of_pred_preserved q g hq]
  cases hf : l.find? q with
  | none => rfl
  | some a => rw [Option.map_some', hfix a (List.find?_some hf)]

theorem db_get_user_update_subscription (st : Store) (uid tgt sd ed : Nat)
    (r : Bool) (amt : ℚ) (now : Nat) :
    db_get_user (db_update_subscription st tgt sd ed r amt now) uid
      = (db_get_user st uid).map (fun u =>
          if u.user_id == tgt then
            { u with subscription_start := some sd, subscription_end := some ed,
                     is_premium := true, updated_at := now, last_reminder_sent := none }
          else u) := by
  unfold db_get_user db_update_subscription
  exact find?_map_of_pred_preserved _ _ (fun u => by split <;> rfl) st.users

theorem db_get_user_revoke (st : Store) (uid tgt now : Nat) :
    db_get_user (db_revoke_subscription st tgt now) uid
      = (db_get_user st uid).map (fun u =>
          if u.user_id == tgt then
            { u with is_premium := false, updated_at := now, invite_link := none }
          else u) := by
  unfold db_get_user db_revoke_subscription
  exact find?_map_of_pred_preserved _ _ (fun u => by split <;> rfl) st.users

theorem db_get_user_save_invite (st : Store) (uid tgt : Nat) (link : String) :
    db_get_user (db_save_invite_link st tgt link) uid
      = (db_get_user st uid).map (fun u =>
          if u.user_id == tgt then { u with invite_link := some link } else u) := by
  unfold db_get_user db_save_invite_link
  exact find?_map_of_pred_preserved _ _ (fun u => by split <;> rfl) st.users

theorem db_get_user_mark_reminder (st : Store) (uid tgt now : Nat) :
    db_get_user (db_mark_reminder_sent st tgt now) uid
      = (db_get_user st uid).map (fun u =>
          if u.user_id == tgt then { u with last_reminder_sent := some now } else u) := by
  unfold db_get_user db_mark_reminder_sent
  exact find?_map_of_pred_preserved _ _ (fun u => by split <;> rfl) st.users

theorem db_get_user_log_notification (st : Store) (uid tgt : Nat) (t m : String) :
    db_get_user (db_log_notification st tgt t m) uid = db_get_user st uid := rfl

theorem db_get_user_update_payment_status (st : Store) (uid : Nat)
    (ref status : String) (f : Option String) (now : Nat) :
    db_get_user (db_update_payment_status st ref status f now) uid
      = db_get_user st uid := rfl

theorem db_get_payment_update_subscription (st : Store) (ref : String)
    (tgt sd ed : Nat) (r : Bool) (amt : ℚ) (now : Nat) :
    db_get_payment_record (db_update_subscription st tgt sd ed r amt now) ref
      = db_get_payment_record st ref := rfl

theorem db_get_payment_save_invite (st : Store) (ref : String) (tgt : Nat)
    (link : String) :
    db_get_payment_record (db_save_invite_link st tgt link) ref
      = db_get_payment_record st ref := rfl

theorem db_get_payment_log_notification (st : Store) (ref : String) (tgt : Nat)
    (t m : String) :
    db_get_payment_record (db_log_notification st tgt t m) ref
      = db_get_payment_record st ref := rfl

theorem db_get_payment_update_status_other (st : Store) (ref ref2 status : String)
    (f : Option String) (now : Nat) (h : ref2 ≠ ref) :
    db_get_payment_record (db_update_payment_status st ref status f now) ref2
      = db_get_payment_record st ref2 := by
  unfold db_get_payment_record db_update_payment_status
  refine find?_map_untargeted _ _ (fun p => by split <;> rfl) ?_ st.payments
  intro p hp
  have hp2 : p.transaction_ref = ref2 := by simpa using hp
  have : (p.transaction_ref == ref) = false := by
    simp [hp2]
    exact h
  simp [this]

/- ===================== claim theorems ===================== -/

/-- C2: for every payment reference whose stored record already has status
`completed`, running `verify_payment_callback` again for that reference
leaves the store — in particular the user's subscription window and the
payment record — entirely unchanged: activation happens at most once per
reference. -/
theorem verify_completed_idempotent (D : Nat) (amt : ℚ) (v : FlwVerification)
    (link : Option String) (st : Store) (uid : Nat) (ref : String) (now : Nat)
    (p : PaymentRow) (hp : db_get_payment_record st ref = some p)
    (hdone : p.status = "completed") :
    (verify_payment_callback D amt v link st uid ref now).1 = st := by
  unfold verify_payment_callback
  rw [hp]
  by_cases h : p.user_id ≠ uid
  · simp [h]
  · simp only [h, if_false, hdone, if_true]
    cases (db_get_user st uid).bind (fun u => u.invite_link) <;> rfl

/-- Witness for C2: user 1 re-verifies the completed reference `ref1`;
the store is returned unchanged. -/
theorem verify_completed_idempotent_witness :
    (verify_payment_callback 30 10000 okVerif none idemStore 1 "ref1" 600).1
      = idemStore :=
  verify_completed_idempotent 30 10000 okVerif none idemStore 1 "ref1" 600
    (mkPayment 1 "ref1" "completed") (by decide) rfl

/-- C9: a verification request for a reference with no stored payment record,
or whose record is owned by a different user, changes nothing in the store
and answers with the record-not-found response. -/
theorem foreign_reference_rejected (D : Nat) (amt : ℚ) (v : FlwVerification)
    (link : Option String) (st : Store) (uid : Nat) (ref : String) (now : Nat)
    (h : db_get_payment_record st ref = none
         ∨ ∃ p, db_get_payment_record st ref = some p ∧ p.user_id ≠ uid) :
    verify_payment_callback D amt v link st uid ref now
      = (st, VerifyResponse.recordNotFound) := by
  unfold verify_payment_callback
  rcases h with h | ⟨p, hp, hne⟩
  · rw [h]
  · rw [hp]
    simp [hne]

/-- Witness for C9: user 1 probes `ref2`, which belongs to user 2; the
operation rejects it and leaves the store unchanged. -/
theorem foreign_reference_rejected_witness :
    verify_payment_callback 30 10000 okVerif none foreignRefStore 1 "ref2" 5
      = (foreignRefStore, VerifyResponse.recordNotFound) :=
  foreign_reference_rejected 30 10000 okVerif none foreignRefStore 1 "ref2" 5
    (Or.inr ⟨mkPayment 2 "ref2" "pending", by decide, by decide⟩)

/-- C6 counterexample: with a storage-layer failure, `get_user` and
`get_payment_record` answer with the absent-shaped `none`, and `add_user`,
`revoke_subscription` and `mark_reminder_sent` swallow the failure and
return normally — none of them surfaces a storage error to the caller. -/
theorem store_failures_swallowed_cex :
    get_user_op true emptyStore 1 = .ok none
    ∧ get_payment_record_op true emptyStore "r" = .ok none
    ∧ add_user_op true emptyStore 1 "u" "f" 0 = .ok emptyStore
    ∧ revoke_subscription_op true emptyStore 1 0 = .ok emptyStore
    ∧ mark_reminder_sent_op true emptyStore 1 0 = .ok emptyStore :=
  ⟨rfl, rfl, rfl, rfl, rfl⟩

/-- C6 amended: only `update_subscription`, `add_payment_record` and
`update_payment_status` surface a storage-layer failure to their caller
(re-raising, with the operation logged); `get_user` and `get_payment_record`
report failure as absence, and `add_user`, `revoke_subscription` and
`mark_reminder_sent` swallow the failure, leaving the store unchanged. -/
theorem store_failure_surface_profile (st : Store) (uid sd ed now : Nat)
    (un fn ref status : String) (flwId : Option String) (r : Bool) (a : ℚ) :
    update_subscription_op true st uid sd ed r a now
      = .error ⟨"update_subscription"⟩
    ∧ add_payment_record_op true st uid ref a now
      = .error ⟨"add_payment_record"⟩
    ∧ update_payment_status_op true st ref status flwId now
      = .error ⟨"update_payment_status"⟩
    ∧ get_user_op true st uid = .ok none
    ∧ get_payment_record_op true st ref = .ok none
    ∧ add_user_op true st uid un fn now = .ok st
    ∧ revoke_subscription_op true st uid now = .ok st
    ∧ mark_reminder_sent_op true st uid now = .ok st :=
  ⟨rfl, rfl, rfl, rfl, rfl, rfl, rfl, rfl⟩

/-- C8 counterexample: with the bot credential set but the gateway secret and
public keys, the webhook secret and the channel identifier all missing,
`load_config` still succeeds — startup does not abort. -/
theorem missing_gateway_key_no_abort :
    envMissingGateway.FLUTTERWAVE_SECRET_KEY = none
    ∧ envMissingGateway.FLUTTERWAVE_PUBLIC_KEY = none
    ∧ envMissingGateway.PREMIUM_CHANNEL_ID = none
    ∧ isOkE (load_config envMissingGateway) = true := by
  refine ⟨rfl, rfl, rfl, ?_⟩
  rfl

/-- C8 amended: startup aborts (non-zero exit, before the webhook listener
starts — the config is loaded at module import) exactly when the bot
credential is missing or empty; no other configuration field is validated. -/
theorem startup_aborts_iff_token_missing (env : Env) :
    isOkE (load_config env) = false ↔ env.BOT_TOKEN.getD "" = "" := by
  unfold load_config
  by_cases h : env.BOT_TOKEN.getD "" = "" <;> simp [h, isOkE]

theorem db_get_user_sweep_expire_step (removeOk notifyOk : Nat → Bool)
    (now uid : Nat) (s : Store) (x : UserRow) :
    db_get_user (sweepExpireStep removeOk notifyOk now s x) uid
      = (db_get_user s uid).map (fun u =>
          if u.user_id == x.user_id then
            { u with is_premium := false, updated_at := now, invite_link := none }
          else u) := by
  show db_get_user
      (if notifyOk x.user_id then
        db_log_notification (db_revoke_subscription s x.user_id now)
          x.user_id "expiry" "Subscription expired"
      else db_revoke_subscription s x.user_id now) uid = _
  split
  · rw [db_get_user_log_notification, db_get_user_revoke]
  · rw [db_get_user_revoke]

theorem sweep_expire_step_preserves (removeOk notifyOk : Nat → Bool)
    (now uid : Nat) (s : Store) (x : UserRow)
    (h : ∃ u2, db_get_user s uid = some u2
          ∧ u2.is_premium = false ∧ u2.invite_link = none) :
    ∃ u2, db_get_user (sweepExpireStep removeOk notifyOk now s x) uid = some u2
      ∧ u2.is_premium = false ∧ u2.invite_link = none := by
  obtain ⟨u2, h1, h2, h3⟩ := h
  rw [db_get_user_sweep_expire_step, h1, Option.map_some']
  by_cases hx : (u2.user_id == x.user_id) = true
  · exact ⟨_, rfl, by simp [hx], by simp [hx]⟩
  · refine ⟨u2, ?_, h2, h3⟩
    simp [hx]

theorem sweep_fold_revokes (removeOk notifyOk : Nat → Bool) (now uid : Nat) :
    ∀ (l : List UserRow) (s : Store),
      ((∃ x ∈ l, x.user_id = uid) ∧ (db_get_user s uid).isSome = true
        ∨ (∃ u2, db_get_user s uid = some u2
             ∧ u2.is_premium = false ∧ u2.invite_link = none)) →
      ∃ u2, db_get_user (l.foldl (sweepExpireStep removeOk notifyOk now) s) uid
              = some u2
        ∧ u2.is_premium = false ∧ u2.invite_link = none := by
  intro l
  induction l with
  | nil =>
    intro s h
    rcases h with ⟨⟨x, hx, _⟩, _⟩ | h
    · exact absurd hx (List.not_mem_nil x)
    · exact h
  | cons x l ih =>
    intro s h
    rw [List.foldl_cons]
    rcases h with ⟨⟨x0, hx0, hid⟩, hsome⟩ | h
    · by_cases hxu : x.user_id = uid
      · -- the head already revokes our user; carry the revoked fact forward
        apply ih
        right
        obtain ⟨u0, hu0⟩ := Option.isSome_iff_exists.mp hsome
        have hbeq : (u0.user_id == x.user_id) = true := by
          have : u0.user_id = uid := by simpa using List.find?_some hu0
          simp [this, hxu]
        rw [db_get_user_sweep_expire_step, hu0, Option.map_some', if_pos hbeq]
        exact ⟨_, rfl, rfl, rfl⟩
      · rcases List.mem_cons.mp hx0 with rfl | hmem
        · exact absurd hid hxu
        · apply ih
          left
          refine ⟨⟨x0, hmem, hid⟩, ?_⟩
          rw [db_get_user_sweep_expire_step]
          obtain ⟨u0, hu0⟩ := Option.isSome_iff_exists.mp hsome
          rw [hu0]
          rfl
    · exact ih _ (Or.inr (sweep_expire_step_preserves removeOk notifyOk now uid s x h))

/-- C4 amended: a user with `is_premium = 1` and `subscription_end`
STRICTLY earlier than the sweep's query time is revoked by that pass — the
database row ends with `is_premium = 0` and a cleared invite link — for every
outcome of the best-effort channel removal and expiry notification (neither
touches the users table, so no failure can undo the revocation).  A user
whose `subscription_end` equals the query time exactly is left for a later
pass, since the query uses `subscription_end < now`, not `<=`. -/
theorem sweep_revokes_strictly_expired (removeOk notifyOk : Nat → Bool)
    (st : Store) (now uid e : Nat) (u : UserRow)
    (h : db_get_user st uid = some u) (hprem : u.is_premium = true)
    (hend : u.subscription_end = some e) (hlt : e < now) :
    ∃ u2, db_get_user (sweepExpiredPass removeOk notifyOk st now) uid = some u2
      ∧ u2.is_premium = false ∧ u2.invite_link = none := by
  unfold sweepExpiredPass
  apply sweep_fold_revokes
  left
  constructor
  · refine ⟨u, ?_, by simpa using List.find?_some h⟩
    unfold db_get_expired_subscriptions
    refine List.mem_filter.mpr ⟨List.mem_of_find?_eq_some h, ?_⟩
    simp [hprem, hend, hlt]
  · rw [h]
    rfl

/-- Witness for the amended C4: at query time 101 the pass revokes user 7
(whose end is 100) and clears the invite link even though both external calls
are made to fail. -/
theorem sweep_revokes_strictly_expired_witness :
    ∃ u2, db_get_user
        (sweepExpiredPass (fun _ => false) (fun _ => false) c4Store 101) 7
        = some u2
      ∧ u2.is_premium = false ∧ u2.invite_link = none :=
  sweep_revokes_strictly_expired (fun _ => false) (fun _ => false) c4Store 101 7 100
    (mkUser 7 (some 100) true none (some "L")) (by decide) (by decide)
    (by decide) (by decide)

/-- C4 counterexample: user 7 has `is_premium = 1` and
`subscription_end = 100 <= now = 100` at the start of the pass, yet the pass
leaves `is_premium = 1` and the invite link in place, because
`get_expired_subscriptions` selects with `subscription_end < now` strictly. -/
theorem expiry_boundary_not_revoked :
    (db_get_user (sweepExpiredPass (fun _ => true) (fun _ => true) c4Store 100) 7).map
        (fun u => (u.is_premium, u.invite_link))
      = some (true, some "L") := by decide

/-- C10: `update_subscription` sets exactly `subscription_start`,
`subscription_end`, `is_premium = 1` and `updated_at`, resets
`last_reminder_sent` to NULL, and leaves every other field of the user's row
— name fields, usage counters, `last_active`, `created_at`, `invite_link` —
unchanged; other users' rows and the payments table are untouched. -/
theorem update_subscription_frame (st : Store) (uid sd ed : Nat) (r : Bool)
    (amt : ℚ) (now : Nat) (u : UserRow) (h : db_get_user st uid = some u) :
    (db_get_user (db_update_subscription st uid sd ed r amt now) uid
       = some { u with subscription_start := some sd, subscription_end := some ed,
                       is_premium := true, updated_at := now,
                       last_reminder_sent := none })
    ∧ (∀ uid2, uid2 ≠ uid →
        db_get_user (db_update_subscription st uid sd ed r amt now) uid2
          = db_get_user st uid2)
    ∧ (db_update_subscription st uid sd ed r amt now).payments = st.payments := by
  have h' : List.find? (fun x => x.user_id == uid) st.users = some u := h
  have hbeq : (u.user_id == uid) = true := by simpa using List.find?_some h'
  refine ⟨?_, ?_, rfl⟩
  · rw [db_get_user_update_subscription, h, Option.map_some', if_pos hbeq]
  · intro uid2 hne
    rw [db_get_user_update_subscription]
    cases h2 : db_get_user st uid2 with
    | none => rfl
    | some u2 =>
      have heq2 : u2.user_id = uid2 := by simpa using List.find?_some h2
      have : (u2.user_id == uid) = false := by simp [heq2, hne]
      rw [Option.map_some', if_neg (by simp [this])]

/-- Witness for C10 at a concrete store: the activation write on user 1. -/
theorem update_subscription_frame_witness :
    (db_get_user (db_update_subscription frameStore 1 100 200 false 10000 50) 1
       = some { mkUser 1 none false none none with
                subscription_start := some 100, subscription_end := some 200,
                is_premium := true, updated_at := 50, last_reminder_sent := none })
    ∧ (∀ uid2, uid2 ≠ 1 →
        db_get_user (db_update_subscription frameStore 1 100 200 false 10000 50) uid2
          = db_get_user frameStore uid2)
    ∧ (db_update_subscription frameStore 1 100 200 false 10000 50).payments
        = frameStore.payments :=
  update_subscription_frame frameStore 1 100 200 false 10000 50
    (mkUser 1 none false none none) (by decide)

/-- C3: the reminder query's de-duplication clause is vacuous — it compares
`last_reminder_sent` (always in the past) against `now + days` (always in the
future) — so a user sitting in the 7-day bucket is selected and re-reminded
on EVERY sweep pass, not at most once per threshold crossing.  Concretely:
user 5 with `subscription_end = 650000` is reminded by the pass at time 0,
which stamps `last_reminder_sent = 0`; the next pass at time 1800 — still
inside the same one-day bucket before the 7-day threshold — selects the user
again and sends a second reminder. -/
theorem reminder_resent_within_bucket :
    ((db_get_user (sweepReminderPass c3Store 0) 5).map
        (fun u => u.last_reminder_sent) = some (some 0))
    ∧ ((db_get_users_needing_reminder (sweepReminderPass c3Store 0) 1800).map
        (fun ud => (ud.1.user_id, ud.2)) = [(5, 7)])
    ∧ ((sweepReminderPass (sweepReminderPass c3Store 0) 1800).notifications.countP
        (fun n => n.user_id == 5 && n.ntype == "reminder") = 2) := by decide

theorem verify_activates (D : Nat) (amt : ℚ) (v : FlwVerification)
    (link : Option String) (st : Store) (uid : Nat) (ref : String) (now : Nat)
    (p : PaymentRow) (u0 : UserRow)
    (hp : db_get_payment_record st ref = some p) (hown : p.user_id = uid)
    (hpend : ¬ p.status = "completed") (hv : verificationSuccessful v = true)
    (hu : db_get_user st uid = some u0) :
    (∃ u1, db_get_user (verify_payment_callback D amt v link st uid ref now).1 uid
        = some u1
      ∧ u1.subscription_start = some (computeSubscriptionWindow (some u0) now D).1
      ∧ u1.subscription_end = some (computeSubscriptionWindow (some u0) now D).2.1
      ∧ u1.is_premium = true)
    ∧ ((verify_payment_callback D amt v link st uid ref now).1.history
        = st.history ++
          [{ user_id := uid,
             start_date := (computeSubscriptionWindow (some u0) now D).1,
             end_date := (computeSubscriptionWindow (some u0) now D).2.1,
             amount := amt / 100, status := "active",
             is_renewal := (computeSubscriptionWindow (some u0) now D).2.2 }])
    ∧ (∀ r2, r2 ≠ ref →
        db_get_payment_record (verify_payment_callback D amt v link st uid ref now).1 r2
          = db_get_payment_record st r2) := by
  have hne : ¬ p.user_id ≠ uid := by simp [hown]
  have hbeq : (u0.user_id == uid) = true := by
    have h' : List.find? (fun x => x.user_id == uid) st.users = some u0 := hu
    simpa using List.find?_some h'
  unfold verify_payment_callback
  simp only [hp, hu]
  rw [if_neg hne, if_neg hpend, if_pos hv]
  cases link with
  | none =>
    dsimp only
    refine ⟨⟨{ u0 with
        subscription_start := some (computeSubscriptionWindow (some u0) now D).1,
        subscription_end := some (computeSubscriptionWindow (some u0) now D).2.1,
        is_premium := true, updated_at := now, last_reminder_sent := none },
      ?_, rfl, rfl, rfl⟩, rfl, ?_⟩
    · rw [db_get_user_update_payment_status, db_get_user_update_subscription, hu,
          Option.map_some', if_pos hbeq]
    · intro r2 hr2
      rw [db_get_payment_update_status_other _ _ _ _ _ _ hr2,
          db_get_payment_update_subscription]
  | some l =>
    dsimp only
    refine ⟨⟨{ u0 with
        subscription_start := some (computeSubscriptionWindow (some u0) now D).1,
        subscription_end := some (computeSubscriptionWindow (some u0) now D).2.1,
        is_premium := true, updated_at := now, last_reminder_sent := none,
        invite_link := some l },
      ?_, rfl, rfl, rfl⟩, rfl, ?_⟩
    · rw [db_get_user_log_notification, db_get_user_save_invite,
          db_get_user_update_payment_status, db_get_user_update_subscription, hu,
          Option.map_some', Option.map_some', if_pos hbeq, if_pos hbeq]
    · intro r2 hr2
      rw [db_get_payment_log_notification, db_get_payment_save_invite,
          db_get_payment_update_status_other _ _ _ _ _ _ hr2,
          db_get_payment_update_subscription]

/-- C1: a user with no active window who verifies a payment at `T0` gets
`start = T0`, `end = T0 + D days`; when a payment for a second reference then
verifies at `T1 < T0 + D days`, the activation path sets the new start to the
previous `subscription_end` (not `T1`), the new end to `T0 + 2*D days`, and
appends the history event with the renewal flag set. -/
theorem renewal_extends_window (D : Nat) (amt : ℚ) (v : FlwVerification)
    (link1 link2 : Option String) (st0 : Store) (uid : Nat) (r1 r2 : String)
    (T0 T1 : Nat) (p1 p2 : PaymentRow) (u0 : UserRow)
    (hp1 : db_get_payment_record st0 r1 = some p1) (hown1 : p1.user_id = uid)
    (hpend1 : ¬ p1.status = "completed")
    (hp2 : db_get_payment_record st0 r2 = some p2) (hown2 : p2.user_id = uid)
    (hpend2 : ¬ p2.status = "completed")
    (hr : r2 ≠ r1)
    (hu : db_get_user st0 uid = some u0) (hfree : u0.is_premium = false)
    (hv : verificationSuccessful v = true)
    (hT : T1 < T0 + D * daySecs) :
    (∃ u1, db_get_user (verify_payment_callback D amt v link1 st0 uid r1 T0).1 uid
        = some u1
      ∧ u1.subscription_start = some T0
      ∧ u1.subscription_end = some (T0 + D * daySecs)
      ∧ u1.is_premium = true)
    ∧ (∃ u2, db_get_user (verify_payment_callback D amt v link2
          (verify_payment_callback D amt v link1 st0 uid r1 T0).1 uid r2 T1).1 uid
        = some u2
      ∧ u2.subscription_start = some (T0 + D * daySecs)
      ∧ u2.subscription_end = some (T0 + D * daySecs + D * daySecs)
      ∧ u2.is_premium = true)
    ∧ (verify_payment_callback D amt v link2
          (verify_payment_callback D amt v link1 st0 uid r1 T0).1 uid r2 T1).1.history.getLast?
        = some { user_id := uid, start_date := T0 + D * daySecs,
                 end_date := T0 + D * daySecs + D * daySecs,
                 amount := amt / 100, status := "active", is_renewal := true } := by
  have hw1 : computeSubscriptionWindow (some u0) T0 D
      = (T0, T0 + D * daySecs, false) := by
    simp [computeSubscriptionWindow, hfree]
  obtain ⟨⟨u1, hu1, hs1, he1, hprem1⟩, hhist1, hframe1⟩ :=
    verify_activates D amt v link1 st0 uid r1 T0 p1 u0 hp1 hown1 hpend1 hv hu
  rw [hw1] at hs1 he1
  have hp2s : db_get_payment_record
      (verify_payment_callback D amt v link1 st0 uid r1 T0).1 r2 = some p2 :=
    (hframe1 r2 hr).trans hp2
  have hw2 : computeSubscriptionWindow (some u1) T1 D
      = (T0 + D * daySecs, T0 + D * daySecs + D * daySecs, true) := by
    simp [computeSubscriptionWindow, hprem1, he1, hT]
  obtain ⟨⟨u2, hu2, hs2, he2, hprem2⟩, hhist2, _⟩ :=
    verify_activates D amt v link2 (verify_payment_callback D amt v link1 st0 uid r1 T0).1
      uid r2 T1 p2 u1 hp2s hown2 hpend2 hv hu1
  rw [hw2] at hs2 he2 hhist2
  refine ⟨⟨u1, hu1, hs1, he1, hprem1⟩, ⟨u2, hu2, hs2, he2, hprem2⟩, ?_⟩
  rw [hhist2, List.getLast?_concat]

/-- Witness for C1: a 30-day activation at time 0 via reference r1, then an
early renewal at time 100 via reference r2. -/
theorem renewal_extends_window_witness :
    (∃ u1, db_get_user (verify_payment_callback 30 10000 okVerif none c1Store 1 "r1" 0).1 1
        = some u1
      ∧ u1.subscription_start = some 0
      ∧ u1.subscription_end = some (0 + 30 * daySecs)
      ∧ u1.is_premium = true)
    ∧ (∃ u2, db_get_user (verify_payment_callback 30 10000 okVerif none
          (verify_payment_callback 30 10000 okVerif none c1Store 1 "r1" 0).1 1 "r2" 100).1 1
        = some u2
      ∧ u2.subscription_start = some (0 + 30 * daySecs)
      ∧ u2.subscription_end = some (0 + 30 * daySecs + 30 * daySecs)
      ∧ u2.is_premium = true)
    ∧ (verify_payment_callback 30 10000 okVerif none
          (verify_payment_callback 30 10000 okVerif none c1Store 1 "r1" 0).1 1 "r2" 100).1.history.getLast?
        = some { user_id := 1, start_date := 0 + 30 * daySecs,
                 end_date := 0 + 30 * daySecs + 30 * daySecs,
                 amount := 10000 / 100, status := "active", is_renewal := true } :=
  renewal_extends_window 30 10000 okVerif none none c1Store 1 "r1" "r2" 0 100
    (mkPayment 1 "r1" "pending") (mkPayment 1 "r2" "pending")
    (mkUser 1 none false none none)
    (by decide) rfl (by decide) (by decide) rfl (by decide) (by decide)
    (by decide) (by decide) (by decide) (by decide)

theorem usersOK_map {l : List UserRow} {f : UserRow → UserRow}
    (hf : ∀ u, rowOK u → rowOK (f u)) (h : usersOK l) : usersOK (l.map f) := by
  intro u hu
  obtain ⟨u0, hu0, rfl⟩ := List.mem_map.mp hu
  exact hf u0 (h u0 hu0)

theorem rowOK_congr {u u2 : UserRow} (h : rowOK u)
    (hp : u2.is_premium = u.is_premium)
    (hs : u2.subscription_start = u.subscription_start)
    (he : u2.subscription_end = u.subscription_end) : rowOK u2 := by
  intro hprem
  obtain ⟨s, e, h1, h2, h3⟩ := h (by rw [← hp, hprem])
  exact ⟨s, e, by rw [hs, h1], by rw [he, h2], h3⟩

theorem rowOK_ite {c : UserRow → Bool} {g : UserRow → UserRow}
    (hg : ∀ u, rowOK u → rowOK (g u)) :
    ∀ u, rowOK u → rowOK (if c u then g u else u) := by
  intro u h
  by_cases hc : c u
  · rw [if_pos hc]
    exact hg u h
  · rw [if_neg hc]
    exact h

theorem rowOK_revoked (u : UserRow) (now : Nat) :
    rowOK { u with is_premium := false, updated_at := now, invite_link := none } := by
  intro hp
  simp at hp

theorem rowOK_fresh (uid : Nat) (un fn : String) (now : Nat) :
    rowOK (freshUserRow uid un fn now) := by
  intro hp
  simp [freshUserRow] at hp

theorem premiumInvariant_add_user (st : Store) (uid : Nat) (un fn : String)
    (now : Nat) (h : premiumInvariant st) :
    premiumInvariant (db_add_user st uid un fn now) := by
  have h1 : usersOK (if (st.users.find? (fun u => u.user_id == uid)).isSome
      then st.users else st.users ++ [freshUserRow uid un fn now]) := by
    split
    · exact h
    · intro u hu
      rcases List.mem_append.mp hu with hm | hm
      · exact h u hm
      · have : u = freshUserRow uid un fn now := by simpa using hm
        subst this
        exact rowOK_fresh uid un fn now
  exact usersOK_map (rowOK_ite (fun u h2 => rowOK_congr h2 rfl rfl rfl)) h1

theorem premiumInvariant_add_payment (st : Store) (uid : Nat) (ref : String)
    (a : ℚ) (now : Nat) (h : premiumInvariant st) :
    premiumInvariant (db_add_payment_record st uid ref a now) := h

theorem premiumInvariant_update_payment_status (st : Store) (ref status : String)
    (f : Option String) (now : Nat) (h : premiumInvariant st) :
    premiumInvariant (db_update_payment_status st ref status f now) := h

theorem premiumInvariant_log (st : Store) (uid : Nat) (t m : String)
    (h : premiumInvariant st) :
    premiumInvariant (db_log_notification st uid t m) := h

theorem premiumInvariant_update_subscription (st : Store) (uid sd ed : Nat)
    (r : Bool) (a : ℚ) (now : Nat) (hlt : sd < ed) (h : premiumInvariant st) :
    premiumInvariant (db_update_subscription st uid sd ed r a now) :=
  usersOK_map (rowOK_ite (fun _ _ => fun _ => ⟨sd, ed, rfl, rfl, hlt⟩)) h

theorem premiumInvariant_revoke (st : Store) (uid now : Nat)
    (h : premiumInvariant st) :
    premiumInvariant (db_revoke_subscription st uid now) :=
  usersOK_map (rowOK_ite (fun u _ => rowOK_revoked u now)) h

theorem premiumInvariant_save_invite (st : Store) (uid : Nat) (link : String)
    (h : premiumInvariant st) :
    premiumInvariant (db_save_invite_link st uid link) :=
  usersOK_map (rowOK_ite (fun _ h2 => rowOK_congr h2 rfl rfl rfl)) h

theorem premiumInvariant_mark_reminder (st : Store) (uid now : Nat)
    (h : premiumInvariant st) :
    premiumInvariant (db_mark_reminder_sent st uid now) :=
  usersOK_map (rowOK_ite (fun _ h2 => rowOK_congr h2 rfl rfl rfl)) h

theorem premiumInvariant_update_stats (st : Store) (uid pv bets now : Nat)
    (h : premiumInvariant st) :
    premiumInvariant (db_update_user_stats st uid pv bets now) :=
  usersOK_map (rowOK_ite (fun _ h2 => rowOK_congr h2 rfl rfl rfl)) h

theorem premiumInvariant_foldl {β : Type} (step : Store → β → Store)
    (hstep : ∀ s x, premiumInvariant s → premiumInvariant (step s x)) :
    ∀ (l : List β) (s : Store), premiumInvariant s →
      premiumInvariant (l.foldl step s) := by
  intro l
  induction l with
  | nil => intro s h; exact h
  | cons x l ih => intro s h; exact ih _ (hstep s x h)

theorem computeSubscriptionWindow_spec (ud : Option UserRow) (now D : Nat) :
    (computeSubscriptionWindow ud now D).2.1
      = (computeSubscriptionWindow ud now D).1 + D * daySecs := by
  unfold computeSubscriptionWindow
  rcases ud with _ | u
  · rfl
  · dsimp only
    split
    · split
      · split <;> rfl
      · rfl
    · rfl

theorem premiumInvariant_verify (D : Nat) (amt : ℚ) (v : FlwVerification)
    (link : Option String) (uid : Nat) (ref : String) (now : Nat) (st : Store)
    (hD : 0 < D) (h : premiumInvariant st) :
    premiumInvariant (verify_payment_callback D amt v link st uid ref now).1 := by
  unfold verify_payment_callback
  cases hp : db_get_payment_record st ref with
  | none => exact h
  | some p =>
    dsimp only
    by_cases h1 : p.user_id ≠ uid
    · rw [if_pos h1]
      exact h
    · rw [if_neg h1]
      by_cases h2 : p.status = "completed"
      · rw [if_pos h2]
        cases (db_get_user st uid).bind (fun u => u.invite_link) <;> exact h
      · rw [if_neg h2]
        by_cases h3 : verificationSuccessful v = true
        · rw [if_pos h3]
          have hwin : (computeSubscriptionWindow (db_get_user st uid) now D).1
              < (computeSubscriptionWindow (db_get_user st uid) now D).2.1 := by
            rw [computeSubscriptionWindow_spec]
            have hpos : 0 < D * daySecs := Nat.mul_pos hD (by decide)
            omega
          cases link with
          | none =>
            exact premiumInvariant_update_payment_status _ _ _ _ _
              (premiumInvariant_update_subscription _ _ _ _ _ _ _ hwin h)
          | some l =>
            exact premiumInvariant_log _ _ _ _
              (premiumInvariant_save_invite _ _ _
                (premiumInvariant_update_payment_status _ _ _ _ _
                  (premiumInvariant_update_subscription _ _ _ _ _ _ _ hwin h)))
        · rw [if_neg h3]
          exact h

theorem premiumInvariant_sweep_expire_step (removeOk notifyOk : Nat → Bool)
    (now : Nat) (s : Store) (x : UserRow) (h : premiumInvariant s) :
    premiumInvariant (sweepExpireStep removeOk notifyOk now s x) := by
  show premiumInvariant
      (if notifyOk x.user_id then
        db_log_notification (db_revoke_subscription s x.user_id now)
          x.user_id "expiry" "Subscription expired"
      else db_revoke_subscription s x.user_id now)
  split
  · exact premiumInvariant_log _ _ _ _ (premiumInvariant_revoke _ _ _ h)
  · exact premiumInvariant_revoke _ _ _ h

theorem premiumInvariant_sweep_remind_step (now : Nat) (s : Store)
    (ud : UserRow × Nat) (h : premiumInvariant s) :
    premiumInvariant (sweepRemindStep now s ud) :=
  premiumInvariant_mark_reminder _ _ _ (premiumInvariant_log _ _ _ _ h)

/-- C5: starting from the empty store, after every sequence of store
operations that the program performs — user upserts, payment inserts,
payment verifications and activations, expiry sweeps, reminder sweeps,
invite-link saves and stat updates — every user row with `is_premium = 1`
has a non-null `subscription_end` strictly greater than the
`subscription_start` recorded at activation time (given a positive
configured plan duration). -/
theorem premium_invariant_holds (D : Nat) (amt : ℚ) (ops : List StoreOp)
    (hD : 0 < D) : premiumInvariant (applyOps D amt ops emptyStore) := by
  have hstep : ∀ (s : Store) (op : StoreOp),
      premiumInvariant s → premiumInvariant (applyOp D amt s op) := by
    intro s op h
    cases op with
    | addUser uid un fn now => exact premiumInvariant_add_user s uid un fn now h
    | addPayment uid ref a now => exact premiumInvariant_add_payment s uid ref a now h
    | verifyPayment v link uid ref now =>
      exact premiumInvariant_verify D amt v link uid ref now s hD h
    | sweepExpire removeOk notifyOk now =>
      exact premiumInvariant_foldl _
        (fun s2 x h2 => premiumInvariant_sweep_expire_step removeOk notifyOk now s2 x h2)
        _ s h
    | sweepRemind now =>
      exact premiumInvariant_foldl _
        (fun s2 x h2 => premiumInvariant_sweep_remind_step now s2 x h2) _ s h
    | saveInvite uid link => exact premiumInvariant_save_invite s uid link h
    | updateStats uid pv bets now => exact premiumInvariant_update_stats s uid pv bets now h
  have hinit : premiumInvariant emptyStore := by
    intro u hu
    exact absurd hu (List.not_mem_nil u)
  exact premiumInvariant_foldl _ hstep ops emptyStore hinit

/-- Witness for C5: a concrete run — upsert, checkout, verified activation,
then an expiry sweep — with the configured 30-day plan. -/
theorem premium_invariant_holds_witness :
    premiumInvariant (applyOps 30 10000
      [StoreOp.addUser 1 "u" "f" 0,
       StoreOp.addPayment 1 "r1" 10000 1,
       StoreOp.verifyPayment okVerif (some "L") 1 "r1" 2,
       StoreOp.sweepExpire (fun _ => true) (fun _ => true) 3000000] emptyStore) :=
  premium_invariant_holds 30 10000
    [StoreOp.addUser 1 "u" "f" 0,
     StoreOp.addPayment 1 "r1" 10000 1,
     StoreOp.verifyPayment okVerif (some "L") 1 "r1" 2,
     StoreOp.sweepExpire (fun _ => true) (fun _ => true) 3000000] (by decide)

theorem countP_congr_mem {α : Type} (l : List α) (p q : α → Bool)
    (h : ∀ a ∈ l, p a = q a) : l.countP p = l.countP q := by
  induction l with
  | nil => rfl
  | cons a l ih =>
    rw [List.countP_cons, List.countP_cons, h a (by simp),
        ih (fun x hx => h x (by simp [hx]))]

theorem rlRun_map_fst : ∀ (ts : List Nat) (st : List Nat),
    (rlRun st ts).map Prod.fst = ts := by
  intro ts
  induction ts with
  | nil => intro st; rfl
  | cons t ts ih =>
    intro st
    show ((t, (rlStep st t).1) :: rlRun (rlStep st t).2 ts).map Prod.fst = t :: ts
    rw [List.map_cons, ih]

theorem rl_window_bound_aux (a : Nat) :
    ∀ (ts : List Nat) (st : List Nat),
      ts.Pairwise (· ≤ ·) →
      (∀ s ∈ st, ∀ t ∈ ts, s ≤ t) →
      st.length ≤ rlMaxRequests →
      allowedInWindow a (rlRun st ts)
        + st.countP (fun s => decide (a < s) && decide (s ≤ a + 60))
        ≤ rlMaxRequests := by
  intro ts
  induction ts with
  | nil =>
    intro st _ _ hlen
    simp only [rlRun, allowedInWindow, List.countP_nil, Nat.zero_add]
    exact le_trans (List.countP_le_length _) hlen
  | cons t ts ih =>
    intro st hpw hle hlen
    have hpw2 : ts.Pairwise (· ≤ ·) := (List.pairwise_cons.mp hpw).2
    have hthead : ∀ x ∈ ts, t ≤ x := (List.pairwise_cons.mp hpw).1
    by_cases hwin : t ≤ a + 60
    · -- window stamps in the state survive the prune at time t
      have hkeep : (rlPrune t st).countP
            (fun s => decide (a < s) && decide (s ≤ a + 60))
          = st.countP (fun s => decide (a < s) && decide (s ≤ a + 60)) := by
        unfold rlPrune
        rw [List.countP_filter]
        refine countP_congr_mem st _ _ ?_
        intro s _
        by_cases hs : a < s
        · have : t < s + 60 := by omega
          simp [hs, this]
        · simp [hs]
      have hsub : ∀ s ∈ rlPrune t st, s ∈ st := fun s hs =>
        List.mem_of_mem_filter hs
      by_cases hallow : (rlPrune t st).length < rlMaxRequests
      · have hrun : rlRun st (t :: ts) = (t, true) :: rlRun (rlPrune t st ++ [t]) ts := by
          show (t, (rlStep st t).1) :: rlRun (rlStep st t).2 ts = _
          rw [rlStep, if_pos hallow]
        rw [hrun]
        have ihx := ih (rlPrune t st ++ [t]) hpw2 ?_ ?_
        · unfold allowedInWindow at ihx ⊢
          rw [List.countP_cons]
          rw [List.countP_append, List.countP_singleton, hkeep] at ihx
          simp only [Bool.true_and] at ihx ⊢
          omega
        · intro s hs x hx
          rcases List.mem_append.mp hs with hm | hm
          · exact hle s (hsub s hm) x (List.mem_cons_of_mem t hx)
          · have : s = t := by simpa using hm
            subst this
            exact hthead x hx
        · have : (rlPrune t st).length + 1 ≤ rlMaxRequests := hallow
          simpa using this
      · have hrun : rlRun st (t :: ts) = (t, false) :: rlRun (rlPrune t st) ts := by
          show (t, (rlStep st t).1) :: rlRun (rlStep st t).2 ts = _
          rw [rlStep, if_neg hallow]
        rw [hrun]
        have ihx := ih (rlPrune t st) hpw2
          (fun s hs x hx => hle s (hsub s hs) x (List.mem_cons_of_mem t hx))
          (le_trans (List.length_filter_le _ _) hlen)
        rw [hkeep] at ihx
        unfold allowedInWindow at ihx ⊢
        rw [List.countP_cons]
        simpa using ihx
    · -- the window is already over: nothing later can land in it
      have hzero : allowedInWindow a (rlRun st (t :: ts)) = 0 := by
        unfold allowedInWindow
        rw [List.countP_eq_zero]
        intro p hp
        have hfst : p.1 ∈ t :: ts := by
          rw [← rlRun_map_fst (t :: ts) st]
          exact List.mem_map.mpr ⟨p, hp, rfl⟩
        have : t ≤ p.1 := by
          rcases List.mem_cons.mp hfst with h | h
          · omega
          · exact hthead _ h
        have : ¬ p.1 ≤ a + 60 := by omega
        simp [this]
      rw [hzero]
      have hcle : st.countP (fun s => decide (a < s) && decide (s ≤ a + 60))
          ≤ st.length := List.countP_le_length _
      omega

theorem rl_burst_aux (b : Nat) :
    ∀ (ts : List Nat) (st : List Nat),
      (∀ s ∈ st, b ≤ s) → (∀ t ∈ ts, b ≤ t ∧ t < b + 60) →
      st.length ≤ rlMaxRequests →
      allowedCount (rlRun st ts) = min ts.length (rlMaxRequests - st.length) := by
  intro ts
  induction ts with
  | nil =>
    intro st _ _ _
    simp [rlRun, allowedCount]
  | cons t ts ih =>
    intro st hst hts hlen
    obtain ⟨hbt, htlt⟩ := hts t (by simp)
    have hprune : rlPrune t st = st := by
      unfold rlPrune
      rw [List.filter_eq_self]
      intro s hs
      have : b ≤ s := hst s hs
      simp only [decide_eq_true_eq]
      omega
    by_cases hallow : st.length < rlMaxRequests
    · have hrun : rlRun st (t :: ts) = (t, true) :: rlRun (st ++ [t]) ts := by
        show (t, (rlStep st t).1) :: rlRun (rlStep st t).2 ts = _
        rw [rlStep, hprune, if_pos hallow]
      rw [hrun]
      have ihx := ih (st ++ [t]) ?_ (fun x hx => hts x (by simp [hx])) ?_
      · unfold allowedCount at ihx ⊢
        rw [List.countP_cons_of_pos _ _ rfl, ihx]
        simp only [List.length_append, List.length_cons, List.length_nil,
          Nat.zero_add]
        rw [Nat.min_def, Nat.min_def]
        split <;> split <;> omega
      · intro s hs
        rcases List.mem_append.mp hs with hm | hm
        · exact hst s hm
        · have : s = t := by simpa using hm
          subst this
          exact hbt
      · simp only [List.length_append, List.length_cons, List.length_nil,
          Nat.zero_add]
        omega
    · have hrun : rlRun st (t :: ts) = (t, false) :: rlRun st ts := by
        show (t, (rlStep st t).1) :: rlRun (rlStep st t).2 ts = _
        rw [rlStep, hprune, if_neg hallow]
      rw [hrun]
      have ihx := ih st hst (fun x hx => hts x (by simp [hx])) hlen
      unfold allowedCount at ihx ⊢
      rw [List.countP_cons_of_neg _ _ (fun h => Bool.noConfusion h), ihx]
      have heq : rlMaxRequests - st.length = 0 := by omega
      simp [heq]

/-- C7 amended: for any nondecreasing sequence of `is_allowed` calls by one
user from the limiter's fresh state, at most `max_requests_per_minute` calls
are allowed inside any rolling 60-second window `(a, a + 60]` (the excess
are refused); and a user with no recorded requests who issues all of an
n-request burst within a 60-second span gets exactly `min n max` allowed —
but when allowed stamps from the preceding 60 seconds are still on the
books, fewer than the maximum of a later window's requests may succeed. -/
theorem rate_limiter_window_bound :
    (∀ (ts : List Nat) (a : Nat), ts.Pairwise (· ≤ ·) →
       allowedInWindow a (rlRun [] ts) ≤ rlMaxRequests)
    ∧ (∀ (b : Nat) (ts : List Nat), (∀ t ∈ ts, b ≤ t ∧ t < b + 60) →
       allowedCount (rlRun [] ts) = min ts.length rlMaxRequests) := by
  constructor
  · intro ts a hpw
    have h := rl_window_bound_aux a ts []
      hpw (fun s hs => absurd hs (List.not_mem_nil s)) (by simp)
    simpa using h
  · intro b ts hts
    have h := rl_burst_aux b ts []
      (fun s hs => absurd hs (List.not_mem_nil s)) hts (by simp)
    simpa using h

/-- Witness for the amended C7: twelve requests at one-second intervals see
exactly ten allowed; the at-most bound holds on the same run. -/
theorem rate_limiter_window_bound_witness :
    allowedInWindow 0 (rlRun [] [1, 2, 3, 4, 5, 6, 7, 8, 9, 10, 11, 12])
      ≤ rlMaxRequests
    ∧ allowedCount (rlRun [] [1, 2, 3, 4, 5, 6, 7, 8, 9, 10, 11, 12])
      = min 12 rlMaxRequests :=
  ⟨rate_limiter_window_bound.1 [1, 2, 3, 4, 5, 6, 7, 8, 9, 10, 11, 12] 0
      (by decide),
   rate_limiter_window_bound.2 1 [1, 2, 3, 4, 5, 6, 7, 8, 9, 10, 11, 12]
      (by decide)⟩

/-- C7 counterexample: ten allowed requests at time 0 still occupy the log
when eleven more arrive at time 30; the window `(10, 70]` contains those
eleven issued requests — more than the configured maximum — yet zero of them
are allowed, not "exactly the configured maximum". -/
theorem rate_limit_exactly_max_cex :
    ((rlRun [] (List.replicate 10 0 ++ List.replicate 11 30)).countP
        (fun p => decide (10 < p.1) && decide (p.1 ≤ 70)) = 11)
    ∧ allowedInWindow 10 (rlRun [] (List.replicate 10 0 ++ List.replicate 11 30)) = 0 := by
  decide
